import Mathlib

/-!
Verification of the analytics logic of `webpokus.py` (basketball stats
viewer).  The computational core — coordinate scaling, shot-outcome
normalization, distance/zone filters, shooting percentages, the pandas
mode of the shot coordinates, the SQL team/referee aggregations and the
head-to-head page logic — is embedded shallowly over `ℚ` (the Python
floats involved, `2.8`, `2.61`, `3`, `6.75`, are exactly representable,
so exact rational arithmetic mirrors the float computation on the
inputs considered here).  External collaborators (SQLite, Streamlit
rendering, matplotlib/seaborn drawing) are modelled only through the
data they hand to or receive from the embedded logic.
-/

/-- One raw row of the `Shots` table as fetched by `generate_shot_chart`:
`SELECT x_coord, y_coord, shot_result, actionType FROM Shots WHERE player_name = ?`.
`shot_result` is kept as the string produced by pandas `astype(str)`
(so a boolean `True` arrives as `"True"`, an integer `1` as `"1"`). -/
structure ShotRow where
  x_coord : ℚ
  y_coord : ℚ
  shot_result : String
  actionType : String
deriving DecidableEq

/-- `df_shots["shot_result"].astype(str).replace({"1": "made", "0": "missed"})`:
pandas `replace` with a plain dict substitutes exact full-value matches and
leaves every other string unchanged. -/
def normalizeResult (s : String) : String :=
  if s = "1" then "made" else if s = "0" then "missed" else s

/-- `df_shots["x_coord"] = df_shots["x_coord"] * 2.8` — the x scaling of the
coordinate normalizer (court image width 280 over raw bound 100). -/
def nxOf (x : ℚ) : ℚ := x * (2.8 : ℚ)

/-- `df_shots["y_coord"] = 261 - (df_shots["y_coord"] * 2.61)` — the y scaling
with the vertical flip (court image height 261 over raw bound 100). -/
def nyOf (y : ℚ) : ℚ := 261 - y * (2.61 : ℚ)

/-- A normalized shot: the row after outcome normalization and coordinate
scaling, as used by every statistic in `generate_shot_chart`. -/
structure NShot where
  nx : ℚ
  ny : ℚ
  result : String
  actionType : String
deriving DecidableEq

/-- The per-row normalization pipeline of `generate_shot_chart`
(lines 121–125): outcome string normalization plus coordinate scaling. -/
def processShot (r : ShotRow) : NShot :=
  { nx := nxOf r.x_coord
    ny := nyOf r.y_coord
    result := normalizeResult r.shot_result
    actionType := r.actionType }

/-- Squared Euclidean distance to the basket anchor `(140, 26)`.  The code
computes `((x-140)**2 + (y-26)**2) ** 0.5` and compares it with the
nonnegative thresholds `3` and `6.75`; since the square root is monotone,
those comparisons are expressed here on the squared distance against the
squared thresholds, which keeps the computation inside `ℚ`. -/
def distSq (s : NShot) : ℚ := (s.nx - 140) ^ 2 + (s.ny - 26) ^ 2

/-- The paint filter `df_shots["distance"] <= 3` of line 141. -/
def paintPred (s : NShot) : Prop := distSq s ≤ (3 : ℚ) ^ 2

/-- The mid-range filter `(distance > 3) & (distance < 6.75)` of line 140. -/
def midPred (s : NShot) : Prop := (3 : ℚ) ^ 2 < distSq s ∧ distSq s < (6.75 : ℚ) ^ 2

instance (s : NShot) : Decidable (paintPred s) := by
  unfold paintPred; infer_instance

instance (s : NShot) : Decidable (midPred s) := by
  unfold midPred; infer_instance

/-- The three scoring zones of the spec.  The code materializes `paint_shots`
and `mid_range_shots` by the two filters above; the remaining shots
(distance at least `6.75`) form the implicit beyond-the-arc complement. -/
inductive Zone where
  | Paint
  | MidRange
  | Beyond
deriving DecidableEq

/-- Total zone assignment induced by the code's two filters: a shot is in the
paint iff it passes the paint filter, mid-range iff it passes the mid-range
filter, and beyond otherwise.  The two filter conditions are mutually
exclusive, so this is the unique total classifier agreeing with them. -/
def zoneOf (s : NShot) : Zone :=
  if distSq s ≤ (3 : ℚ) ^ 2 then Zone.Paint
  else if distSq s < (6.75 : ℚ) ^ 2 then Zone.MidRange
  else Zone.Beyond

/-- Python `round(v, 1)` on the percentage values: rounding to one decimal
place.  (Python rounds float ties to even; no value in this development is
decided by the tie behaviour, so Mathlib's `round` is used for the
half-integer case.) -/
def round1 (x : ℚ) : ℚ := ((round (x * 10) : ℤ) : ℚ) / 10

/-- `len(subset[subset["shot_result"] == "made"])`. -/
def madeCount (l : List NShot) : ℕ := (l.filter (fun s => s.result == "made")).length

/-- The percentage formula used for every subset in `generate_shot_chart`:
`round((made / total) * 100, 1) if total > 0 else 0`.  The division happens
only under the guard that the subset's attempt count is positive. -/
def pctOf (l : List NShot) : ℚ :=
  if 0 < l.length then round1 (((madeCount l : ℚ) / (l.length : ℚ)) * 100) else 0

/-- `total_shots = len(df_shots)`. -/
def totalShots (l : List NShot) : ℕ := l.length

/-- `fg_percentage` of line 130. -/
def fgPct (l : List NShot) : ℚ := pctOf l

/-- `three_point_shots = df_shots[df_shots["actionType"] == "3pt"]`. -/
def threePtShots (l : List NShot) : List NShot := l.filter (fun s => s.actionType == "3pt")

/-- `three_pt_percentage` of line 136. -/
def threePtPct (l : List NShot) : ℚ := pctOf (threePtShots l)

/-- `mid_range_shots` of line 140 (squared-distance form of the filter). -/
def midRangeShots (l : List NShot) : List NShot :=
  l.filter (fun s => decide (midPred s))

/-- `paint_shots` of line 141 (squared-distance form of the filter). -/
def paintShots (l : List NShot) : List NShot :=
  l.filter (fun s => decide (paintPred s))

/-- `mid_range_fg` of line 143. -/
def midRangeFg (l : List NShot) : ℚ := pctOf (midRangeShots l)

/-- `paint_fg` of line 144. -/
def paintFg (l : List NShot) : ℚ := pctOf (paintShots l)

/-- C7: the Coordinate Normalizer `(x, y) ↦ (x * 2.8, 261 - y * 2.61)` maps
every raw coordinate in `[0, 100] × [0, 100]` into `[0, 280] × [0, 261]`,
and applies the same unclamped linear map outside those bounds: a raw x
beyond 100 lands strictly beyond 280 and a raw y below 0 lands strictly
above 261, passed through rather than clamped into the frame. -/
theorem coordinate_normalizer_bounds_and_no_clamp :
    (∀ x y : ℚ, 0 ≤ x → x ≤ 100 → 0 ≤ y → y ≤ 100 →
      0 ≤ nxOf x ∧ nxOf x ≤ 280 ∧ 0 ≤ nyOf y ∧ nyOf y ≤ 261) ∧
    (∀ x : ℚ, 100 < x → 280 < nxOf x) ∧
    (∀ y : ℚ, y < 0 → 261 < nyOf y) := by
  refine ⟨fun x y hx0 hx1 hy0 hy1 => ?_, fun x hx => ?_, fun y hy => ?_⟩
  · unfold nxOf nyOf
    norm_num
    refine ⟨by nlinarith, by nlinarith, by nlinarith, by nlinarith⟩
  · unfold nxOf; nlinarith
  · unfold nyOf; nlinarith

/-- C7 witness: the bounds at the in-range input `(50, 50)` and the
pass-through behaviour at the out-of-range inputs `x = 101` and `y = -1`. -/
theorem coordinate_normalizer_bounds_and_no_clamp_witness :
    (0 ≤ nxOf 50 ∧ nxOf 50 ≤ 280 ∧ 0 ≤ nyOf 50 ∧ nyOf 50 ≤ 261) ∧
    280 < nxOf 101 ∧ 261 < nyOf (-1) :=
  ⟨coordinate_normalizer_bounds_and_no_clamp.1 50 50 (by norm_num) (by norm_num)
      (by norm_num) (by norm_num),
    coordinate_normalizer_bounds_and_no_clamp.2.1 101 (by norm_num),
    coordinate_normalizer_bounds_and_no_clamp.2.2 (-1) (by norm_num)⟩

/-- C10: outcome normalization maps the string `"1"` to `"made"` and `"0"` to
`"missed"` and leaves every other string unchanged; consequently a raw
encoding whose string form is neither `"1"` nor `"made"` never normalizes to
`"made"` (so it is never counted as a make), while every row is counted as an
attempt regardless of its outcome string. -/
theorem outcome_normalization_exact :
    normalizeResult "1" = "made" ∧
    normalizeResult "0" = "missed" ∧
    (∀ s : String, s ≠ "1" → s ≠ "0" → normalizeResult s = s) ∧
    (∀ s : String, s ≠ "1" → s ≠ "made" → normalizeResult s ≠ "made") ∧
    (∀ rows : List ShotRow, totalShots (rows.map processShot) = rows.length) := by
  refine ⟨by decide, by decide, fun s h1 h0 => ?_, fun s h1 hm => ?_,
    fun rows => List.length_map rows processShot⟩
  · unfold normalizeResult
    rw [if_neg h1, if_neg h0]
  · unfold normalizeResult
    rw [if_neg h1]
    by_cases h0 : s = "0"
    · rw [if_pos h0]; decide
    · rw [if_neg h0]; exact hm

/-- C10 witness: the boolean encoding `True` stringifies to `"True"`, which is
left unchanged and is not `"made"`, while a one-row list with that outcome
still counts one attempt. -/
theorem outcome_normalization_exact_witness :
    normalizeResult "True" = "True" ∧
    normalizeResult "True" ≠ "made" ∧
    totalShots (List.map processShot [⟨10, 10, "True", "2pt"⟩]) = 1 :=
  ⟨outcome_normalization_exact.2.2.1 "True" (by decide) (by decide),
    outcome_normalization_exact.2.2.2.1 "True" (by decide) (by decide),
    outcome_normalization_exact.2.2.2.2 [⟨10, 10, "True", "2pt"⟩]⟩

/-- C2: every percentage computed by `generate_shot_chart` — overall, the
3-point action-type subset, and each zone subset — is exactly `0` when the
corresponding subset has zero attempts; the division by the attempt count is
guarded by `total > 0` in each formula. -/
theorem fg_pct_zero_attempts :
    ∀ l : List NShot,
      (totalShots l = 0 → fgPct l = 0) ∧
      (threePtShots l = [] → threePtPct l = 0) ∧
      (midRangeShots l = [] → midRangeFg l = 0) ∧
      (paintShots l = [] → paintFg l = 0) := by
  have hnil : pctOf [] = 0 := by decide
  intro l
  refine ⟨fun h => ?_, fun h => ?_, fun h => ?_, fun h => ?_⟩
  · have : l = [] := List.length_eq_zero.mp h
    rw [fgPct, this]; exact hnil
  · rw [threePtPct, h]; exact hnil
  · rw [midRangeFg, h]; exact hnil
  · rw [paintFg, h]; exact hnil

/-- C2 witness: all four zero-attempt percentages evaluated on the empty shot
list are `0`. -/
theorem fg_pct_zero_attempts_witness :
    fgPct [] = 0 ∧ threePtPct [] = 0 ∧ midRangeFg [] = 0 ∧ paintFg [] = 0 :=
  ⟨(fg_pct_zero_attempts []).1 rfl, (fg_pct_zero_attempts []).2.1 rfl,
    (fg_pct_zero_attempts []).2.2.1 rfl, (fg_pct_zero_attempts []).2.2.2 rfl⟩

/-- C1 counterexample: the claim says a shot at distance exactly `r_paint = 3`
from the basket anchor is classified MidRange, not Paint.  The code's paint
filter is `distance <= 3` (inclusive), so the concrete normalized shot
`(143, 26)` — at distance exactly `3` from the anchor `(140, 26)` — is
classified Paint, refuting the claim. -/
theorem zone_paint_boundary_counterexample :
    distSq ⟨143, 26, "made", "2pt"⟩ = (3 : ℚ) ^ 2 ∧
    zoneOf ⟨143, 26, "made", "2pt"⟩ = Zone.Paint ∧
    Zone.Paint ≠ Zone.MidRange := by
  refine ⟨by norm_num [distSq], ?_, by decide⟩
  unfold zoneOf
  rw [if_pos (by norm_num [distSq])]

/-- C1 amended: the zone classification induced by the code's filters is
total and boundary-deterministic — every normalized shot falls in exactly
one zone (`zoneOf` agrees with the paint filter `d ≤ 3`, the mid-range
filter `3 < d < 6.75`, and assigns Beyond exactly to the rest) — but the
boundaries go the other way at the paint radius: a shot at exactly
`d = r_paint` is Paint (the paint filter is inclusive), and a shot at
exactly `d = r_mid` is Beyond, not MidRange (the mid-range filter is
strict at its upper bound). -/
theorem zone_classifier_totality_amended :
    ∀ s : NShot,
      (zoneOf s = Zone.Paint ↔ paintPred s) ∧
      (zoneOf s = Zone.MidRange ↔ midPred s) ∧
      (zoneOf s = Zone.Beyond ↔ ¬paintPred s ∧ ¬midPred s) ∧
      (distSq s = (3 : ℚ) ^ 2 → zoneOf s = Zone.Paint) ∧
      (distSq s = (6.75 : ℚ) ^ 2 → zoneOf s = Zone.Beyond) := by
  intro s
  unfold zoneOf paintPred midPred
  by_cases h1 : distSq s ≤ (3 : ℚ) ^ 2
  · rw [if_pos h1]
    exact ⟨⟨fun _ => h1, fun _ => rfl⟩,
      ⟨fun h => absurd h (by decide), fun hm => absurd hm.1 (not_lt.mpr h1)⟩,
      ⟨fun h => absurd h (by decide), fun hb => absurd h1 hb.1⟩,
      fun _ => rfl, fun h2 => absurd (h2 ▸ h1) (by norm_num)⟩
  · by_cases h2 : distSq s < (6.75 : ℚ) ^ 2
    · rw [if_neg h1, if_pos h2]
      exact ⟨⟨fun h => absurd h (by decide), fun hp => absurd hp h1⟩,
        ⟨fun _ => ⟨not_le.mp h1, h2⟩, fun _ => rfl⟩,
        ⟨fun h => absurd h (by decide), fun hb => absurd ⟨not_le.mp h1, h2⟩ hb.2⟩,
        fun he => absurd (le_of_eq he) h1,
        fun he => absurd (he ▸ h2) (lt_irrefl _)⟩
    · rw [if_neg h1, if_neg h2]
      exact ⟨⟨fun h => absurd h (by decide), fun hp => absurd hp h1⟩,
        ⟨fun h => absurd h (by decide), fun hm => absurd hm.2 h2⟩,
        ⟨fun _ => ⟨h1, fun hm => h2 hm.2⟩, fun _ => rfl⟩,
        fun he => absurd (le_of_eq he) h1,
        fun _ => rfl⟩

/-- C1 amended witness: the two boundary shots — distance exactly `3` is
Paint, distance exactly `6.75` is Beyond. -/
theorem zone_classifier_totality_amended_witness :
    zoneOf ⟨143, 26, "made", "2pt"⟩ = Zone.Paint ∧
    zoneOf ⟨587 / 4, 26, "missed", "3pt"⟩ = Zone.Beyond :=
  ⟨(zone_classifier_totality_amended ⟨143, 26, "made", "2pt"⟩).2.2.2.1
      (by norm_num [distSq]),
    (zone_classifier_totality_amended ⟨587 / 4, 26, "missed", "3pt"⟩).2.2.2.2
      (by norm_num [distSq])⟩

lemma madeCount_perm {l l2 : List NShot} (h : l.Perm l2) : madeCount l = madeCount l2 := by
  unfold madeCount
  exact (h.filter _).length_eq

lemma pctOf_perm {l l2 : List NShot} (h : l.Perm l2) : pctOf l = pctOf l2 := by
  unfold pctOf
  rw [h.length_eq, madeCount_perm h]

/-- C9: every shooting metric except the mode tie-break is invariant under
permutation of the input shots: total attempts, made count, overall FG%,
both zone percentages, and the 3-point percentage agree on any two
orderings of the same shots. -/
theorem metrics_order_independent :
    ∀ l l2 : List NShot, l.Perm l2 →
      totalShots l = totalShots l2 ∧
      madeCount l = madeCount l2 ∧
      fgPct l = fgPct l2 ∧
      midRangeFg l = midRangeFg l2 ∧
      paintFg l = paintFg l2 ∧
      threePtPct l = threePtPct l2 := by
  intro l l2 h
  refine ⟨h.length_eq, madeCount_perm h, pctOf_perm h, ?_, ?_, ?_⟩
  · unfold midRangeFg midRangeShots
    exact pctOf_perm (h.filter _)
  · unfold paintFg paintShots
    exact pctOf_perm (h.filter _)
  · unfold threePtPct threePtShots
    exact pctOf_perm (h.filter _)

/-- C9 witness: the metrics agree on a concrete two-shot list and its
reversal. -/
theorem metrics_order_independent_witness :
    totalShots [⟨1, 2, "made", "3pt"⟩, ⟨5, 6, "missed", "2pt"⟩] =
      totalShots [⟨5, 6, "missed", "2pt"⟩, ⟨1, 2, "made", "3pt"⟩] ∧
    madeCount [⟨1, 2, "made", "3pt"⟩, ⟨5, 6, "missed", "2pt"⟩] =
      madeCount [⟨5, 6, "missed", "2pt"⟩, ⟨1, 2, "made", "3pt"⟩] ∧
    fgPct [⟨1, 2, "made", "3pt"⟩, ⟨5, 6, "missed", "2pt"⟩] =
      fgPct [⟨5, 6, "missed", "2pt"⟩, ⟨1, 2, "made", "3pt"⟩] ∧
    midRangeFg [⟨1, 2, "made", "3pt"⟩, ⟨5, 6, "missed", "2pt"⟩] =
      midRangeFg [⟨5, 6, "missed", "2pt"⟩, ⟨1, 2, "made", "3pt"⟩] ∧
    paintFg [⟨1, 2, "made", "3pt"⟩, ⟨5, 6, "missed", "2pt"⟩] =
      paintFg [⟨5, 6, "missed", "2pt"⟩, ⟨1, 2, "made", "3pt"⟩] ∧
    threePtPct [⟨1, 2, "made", "3pt"⟩, ⟨5, 6, "missed", "2pt"⟩] =
      threePtPct [⟨5, 6, "missed", "2pt"⟩, ⟨1, 2, "made", "3pt"⟩] :=
  metrics_order_independent _ _
    (List.Perm.swap (⟨5, 6, "missed", "2pt"⟩ : NShot) (⟨1, 2, "made", "3pt"⟩ : NShot) [])

/-- The largest occurrence count attained in a list of coordinates, as used
by pandas `Series.mode`: the maximum of `count v` over the list (0 for the
empty list). -/
def maxCount (l : List ℚ) : ℕ := (l.map (fun v => l.count v)).foldr max 0

/-- The values of maximal occurrence count — the multimodal candidate set of
pandas `Series.mode`. -/
def modeCandidates (l : List ℚ) : List ℚ :=
  l.filter (fun v => l.count v == maxCount l)

/-- Minimum of a list with a default for the empty list. -/
def listMinD : List ℚ → ℚ → ℚ
  | [], d => d
  | a :: t, _ => t.foldl min a

/-- `series.mode()[0] if not series.empty else 0`: pandas `Series.mode`
returns the modal values sorted ascending, so index `[0]` is the smallest
value of maximal occurrence count; an empty column falls back to `0`. -/
def pandasMode (l : List ℚ) : ℚ := listMinD (modeCandidates l) 0

/-- `(most_frequent_x, most_frequent_y)` of lines 147–148: the per-axis
pandas modes of the scaled coordinate columns, computed independently. -/
def mostFrequentLoc (l : List NShot) : ℚ × ℚ :=
  (pandasMode (l.map (fun s => s.nx)), pandasMode (l.map (fun s => s.ny)))

/-- Largest occurrence count among coordinate pairs (claim-side notion). -/
def maxPairCount (l : List (ℚ × ℚ)) : ℕ := (l.map (fun p => l.count p)).foldr max 0

/-- The claim's specification of the reported shot location, written from the
spec's words and NOT from the code: the single `(nx, ny)` pair of maximal
occurrence count, ties broken by the pair appearing first in the original
input order. -/
def claimModePair (l : List (ℚ × ℚ)) : Option (ℚ × ℚ) :=
  l.find? (fun p => l.count p == maxPairCount l)

lemma le_foldr_max : ∀ (l : List ℕ) (a : ℕ), a ∈ l → a ≤ l.foldr max 0 := by
  intro l
  induction l with
  | nil => intro a h; cases h
  | cons b t ih =>
    intro a h
    rcases List.mem_cons.mp h with rfl | h2
    · exact le_max_left _ _
    · exact le_trans (ih a h2) (le_max_right _ _)

lemma foldr_max_eq_zero_or_mem : ∀ l : List ℕ, l.foldr max 0 = 0 ∨ l.foldr max 0 ∈ l := by
  intro l
  induction l with
  | nil => exact Or.inl rfl
  | cons b t ih =>
    have hred : (b :: t).foldr max 0 = max b (t.foldr max 0) := rfl
    rcases max_choice b (t.foldr max 0) with h | h
    · right
      rw [hred, h]
      exact List.mem_cons_self b t
    · rw [hred, h]
      rcases ih with h0 | hm
      · exact Or.inl h0
      · exact Or.inr (List.mem_cons_of_mem b hm)

lemma modeCandidates_ne_nil {l : List ℚ} (h : l ≠ []) : modeCandidates l ≠ [] := by
  obtain ⟨a, ha⟩ := List.exists_mem_of_ne_nil l h
  have hpos : 0 < l.count a := List.count_pos_iff.mpr ha
  have hle : l.count a ≤ maxCount l :=
    le_foldr_max _ _ (List.mem_map_of_mem (fun v => l.count v) ha)
  have hmm : maxCount l ∈ l.map (fun v => l.count v) := by
    rcases foldr_max_eq_zero_or_mem (l.map (fun v => l.count v)) with h0 | hm
    · exfalso
      have h0m : maxCount l = 0 := h0
      omega
    · exact hm
  obtain ⟨v, hv, hveq⟩ := List.mem_map.mp hmm
  have hvc : v ∈ modeCandidates l := by
    unfold modeCandidates
    exact List.mem_filter.mpr ⟨hv, by simp [hveq]⟩
  exact List.ne_nil_of_mem hvc

lemma foldl_min_mem : ∀ (t : List ℚ) (a : ℚ), List.foldl min a t ∈ a :: t := by
  intro t
  induction t with
  | nil => intro a; exact List.mem_cons_self a []
  | cons b t ih =>
    intro a
    have hred : List.foldl min a (b :: t) = List.foldl min (min a b) t := rfl
    rw [hred]
    rcases List.mem_cons.mp (ih (min a b)) with h1 | h1
    · rw [h1]
      rcases min_choice a b with h2 | h2
      · rw [h2]; exact List.mem_cons_self a (b :: t)
      · rw [h2]; exact List.mem_cons_of_mem a (List.mem_cons_self b t)
    · exact List.mem_cons_of_mem a (List.mem_cons_of_mem b h1)

lemma foldl_min_le : ∀ (t : List ℚ) (a x : ℚ), x ∈ a :: t → List.foldl min a t ≤ x := by
  intro t
  induction t with
  | nil =>
    intro a x hx
    rcases List.mem_cons.mp hx with rfl | h
    · exact le_refl _
    · cases h
  | cons b t ih =>
    intro a x hx
    have hred : List.foldl min a (b :: t) = List.foldl min (min a b) t := rfl
    rw [hred]
    have hmin : List.foldl min (min a b) t ≤ min a b :=
      ih (min a b) (min a b) (List.mem_cons_self _ _)
    rcases List.mem_cons.mp hx with rfl | hx2
    · exact le_trans hmin (min_le_left _ _)
    · rcases List.mem_cons.mp hx2 with rfl | hx3
      · exact le_trans hmin (min_le_right _ _)
      · exact ih (min a b) x (List.mem_cons_of_mem _ hx3)

lemma pandasMode_spec {l : List ℚ} (h : l ≠ []) :
    pandasMode l ∈ l ∧
    (∀ v ∈ l, l.count v ≤ l.count (pandasMode l)) ∧
    (∀ v ∈ l, l.count v = l.count (pandasMode l) → pandasMode l ≤ v) := by
  obtain ⟨a, t, hat⟩ := List.exists_cons_of_ne_nil (modeCandidates_ne_nil h)
  have hmode : pandasMode l = List.foldl min a t := by
    unfold pandasMode
    rw [hat]
    rfl
  have hmem_cand : pandasMode l ∈ modeCandidates l := by
    rw [hmode, hat]
    exact foldl_min_mem t a
  obtain ⟨hmeml, hcond⟩ := List.mem_filter.mp hmem_cand
  have hcount : l.count (pandasMode l) = maxCount l := by simpa using hcond
  refine ⟨hmeml, fun v hv => ?_, fun v hv hveq => ?_⟩
  · rw [hcount]
    exact le_foldr_max _ _ (List.mem_map_of_mem (fun v => l.count v) hv)
  · have hvc : v ∈ modeCandidates l :=
      List.mem_filter.mpr ⟨hv, by simp [hveq, hcount]⟩
    rw [hat] at hvc
    rw [hmode]
    exact foldl_min_le t a v hvc

/-- C5 counterexample: on the three normalized shots `(1,20), (1,30), (2,10)`
— where every pair occurs once, so the claim's mode (ties broken by input
order) is the first pair `(1, 20)` — the code reports `(1, 10)`: the modes of
the x and y columns taken independently (x mode `1`, y mode `10`, the
smallest of the tied y values).  The reported pair differs from the claimed
one and is not even an attempted shot location. -/
theorem mode_location_counterexample :
    mostFrequentLoc [⟨1, 20, "made", "2pt"⟩, ⟨1, 30, "made", "2pt"⟩, ⟨2, 10, "made", "2pt"⟩] =
      (1, 10) ∧
    claimModePair (List.map (fun s => (s.nx, s.ny))
        ([⟨1, 20, "made", "2pt"⟩, ⟨1, 30, "made", "2pt"⟩, ⟨2, 10, "made", "2pt"⟩] :
          List NShot)) =
      some (1, 20) ∧
    ((1 : ℚ), (10 : ℚ)) ≠ ((1 : ℚ), (20 : ℚ)) ∧
    ((1 : ℚ), (10 : ℚ)) ∉ List.map (fun s => (s.nx, s.ny))
        ([⟨1, 20, "made", "2pt"⟩, ⟨1, 30, "made", "2pt"⟩, ⟨2, 10, "made", "2pt"⟩] :
          List NShot) := by
  refine ⟨by decide, by decide, by decide, by decide⟩

/-- C5 amended: for every non-empty shot list the reported location is the
pair of per-axis pandas modes, computed independently: its first component
is an occurring x-coordinate of maximal occurrence count among the
x-coordinates, smallest among the tied maximal ones (ties are broken by
value, not by input order), and likewise for the second component over the
y-coordinates; the reported pair need not be an attempted `(nx, ny)` pair. -/
theorem mode_location_amended :
    ∀ l : List NShot, l ≠ [] →
      ((mostFrequentLoc l).1 ∈ l.map (fun s => s.nx) ∧
        (∀ v ∈ l.map (fun s => s.nx),
          (l.map (fun s => s.nx)).count v ≤
            (l.map (fun s => s.nx)).count (mostFrequentLoc l).1) ∧
        (∀ v ∈ l.map (fun s => s.nx),
          (l.map (fun s => s.nx)).count v =
              (l.map (fun s => s.nx)).count (mostFrequentLoc l).1 →
            (mostFrequentLoc l).1 ≤ v)) ∧
      ((mostFrequentLoc l).2 ∈ l.map (fun s => s.ny) ∧
        (∀ v ∈ l.map (fun s => s.ny),
          (l.map (fun s => s.ny)).count v ≤
            (l.map (fun s => s.ny)).count (mostFrequentLoc l).2) ∧
        (∀ v ∈ l.map (fun s => s.ny),
          (l.map (fun s => s.ny)).count v =
              (l.map (fun s => s.ny)).count (mostFrequentLoc l).2 →
            (mostFrequentLoc l).2 ≤ v)) := by
  intro l h
  have hx := pandasMode_spec (l := l.map (fun s => s.nx))
    (fun hm => h (List.map_eq_nil_iff.mp hm))
  have hy := pandasMode_spec (l := l.map (fun s => s.ny))
    (fun hm => h (List.map_eq_nil_iff.mp hm))
  exact ⟨hx, hy⟩

/-- C5 amended witness: on the concrete shots `(3,4)` and `(3,7)` the
reported x-coordinate is an attempted x value. -/
theorem mode_location_amended_witness :
    (mostFrequentLoc [⟨3, 4, "made", "2pt"⟩, ⟨3, 7, "missed", "2pt"⟩]).1 ∈
      List.map (fun s => s.nx)
        ([⟨3, 4, "made", "2pt"⟩, ⟨3, 7, "missed", "2pt"⟩] : List NShot) :=
  (mode_location_amended [⟨3, 4, "made", "2pt"⟩, ⟨3, 7, "missed", "2pt"⟩] (by decide)).1.1

/-- One row of the `Teams` table as consumed by `fetch_team_data`: one team's
box-score line for one game (`tm = 1` marks the home side in the query's
`CASE WHEN tm = 1 THEN 'Home' ELSE 'Away' END`). -/
structure TeamRow where
  name : String
  tm : ℤ
  game_id : ℕ
  p1_score : ℚ
  p2_score : ℚ
  p3_score : ℚ
  p4_score : ℚ
  fouls_total : ℚ
  free_throws_made : ℚ
  field_goals_made : ℚ
  assists : ℚ
  rebounds_total : ℚ
  steals : ℚ
  turnovers : ℚ
  blocks : ℚ
deriving DecidableEq

/-- SQL `AVG` over a group's column (groups produced by `GROUP BY` are never
empty, so the guard value is never observed). -/
def qmean (l : List ℚ) : ℚ := if l.length = 0 then 0 else l.sum / (l.length : ℚ)

/-- One output row of `fetch_team_data`'s query. -/
structure TeamAgg where
  Team : String
  Location : String
  Games_Played : ℕ
  Avg_Points : ℚ
  Avg_Fouls : ℚ
  Avg_Free_Throws : ℚ
  Avg_Field_Goals : ℚ
  Avg_Assists : ℚ
  Avg_Rebounds : ℚ
  Avg_Steals : ℚ
  Avg_Turnovers : ℚ
  Avg_Blocks : ℚ
deriving DecidableEq

/-- The distinct `GROUP BY name, tm` keys occurring in the row set. -/
def teamKeys (rows : List TeamRow) : List (String × ℤ) :=
  (rows.map (fun r => (r.name, r.tm))).dedup

/-- The rows of one `(name, tm)` group. -/
def teamGroup (rows : List TeamRow) (k : String × ℤ) : List TeamRow :=
  rows.filter (fun r => decide ((r.name, r.tm) = k))

/-- The aggregate row the query produces for one group: `COUNT(game_id)` is
the group's row count (no `game_id` is NULL) and each `AVG` is the
arithmetic mean of the column over the group, with
`Avg_Points = AVG(p1_score + p2_score + p3_score + p4_score)`. -/
def aggOf (rows : List TeamRow) (k : String × ℤ) : TeamAgg :=
  { Team := k.1
    Location := if k.2 = 1 then "Home" else "Away"
    Games_Played := (teamGroup rows k).length
    Avg_Points := qmean ((teamGroup rows k).map
      (fun r => r.p1_score + r.p2_score + r.p3_score + r.p4_score))
    Avg_Fouls := qmean ((teamGroup rows k).map (fun r => r.fouls_total))
    Avg_Free_Throws := qmean ((teamGroup rows k).map (fun r => r.free_throws_made))
    Avg_Field_Goals := qmean ((teamGroup rows k).map (fun r => r.field_goals_made))
    Avg_Assists := qmean ((teamGroup rows k).map (fun r => r.assists))
    Avg_Rebounds := qmean ((teamGroup rows k).map (fun r => r.rebounds_total))
    Avg_Steals := qmean ((teamGroup rows k).map (fun r => r.steals))
    Avg_Turnovers := qmean ((teamGroup rows k).map (fun r => r.turnovers))
    Avg_Blocks := qmean ((teamGroup rows k).map (fun r => r.blocks)) }

/-- `ORDER BY Avg_Points DESC` as a relation on aggregate rows. -/
def byAvgPointsDesc (a b : TeamAgg) : Prop := b.Avg_Points ≤ a.Avg_Points

instance : DecidableRel byAvgPointsDesc :=
  fun a b => inferInstanceAs (Decidable (b.Avg_Points ≤ a.Avg_Points))

instance : IsTotal TeamAgg byAvgPointsDesc :=
  ⟨fun a b => le_total b.Avg_Points a.Avg_Points⟩

instance : IsTrans TeamAgg byAvgPointsDesc :=
  ⟨fun _ _ _ h1 h2 => le_trans h2 h1⟩

/-- `fetch_team_data`: group the `Teams` rows by `(name, tm)`, aggregate each
group, and order by `Avg_Points` descending. -/
def fetch_team_data (rows : List TeamRow) : List TeamAgg :=
  List.insertionSort byAvgPointsDesc ((teamKeys rows).map (aggOf rows))

/-- C3: `fetch_team_data` orders its output by `Avg_Points` descending,
produces exactly one aggregate row per `(team, home/away)` group, each group
key present in the rows yields its aggregate (per-field means and the
group's row count) in the output, and on the synthetic Lions/Tigers set
(Lions 80, 90, 100; Tigers 70, 75, all home rows) it yields Lions with
`Avg_Points = 90`, `Games_Played = 3` ordered before Tigers with
`Avg_Points = 72.5`, `Games_Played = 2`. -/
theorem team_aggregation_contract :
    (∀ rows : List TeamRow, List.Sorted byAvgPointsDesc (fetch_team_data rows)) ∧
    (∀ rows : List TeamRow, (fetch_team_data rows).length = (teamKeys rows).length) ∧
    (∀ rows : List TeamRow, ∀ k ∈ teamKeys rows, aggOf rows k ∈ fetch_team_data rows) ∧
    fetch_team_data
        ([⟨"Lions", 1, 1, 80, 0, 0, 0, 0, 0, 0, 0, 0, 0, 0, 0⟩,
          ⟨"Lions", 1, 2, 90, 0, 0, 0, 0, 0, 0, 0, 0, 0, 0, 0⟩,
          ⟨"Lions", 1, 3, 100, 0, 0, 0, 0, 0, 0, 0, 0, 0, 0, 0⟩,
          ⟨"Tigers", 1, 4, 70, 0, 0, 0, 0, 0, 0, 0, 0, 0, 0, 0⟩,
          ⟨"Tigers", 1, 5, 75, 0, 0, 0, 0, 0, 0, 0, 0, 0, 0, 0⟩] : List TeamRow) =
      [⟨"Lions", "Home", 3, 90, 0, 0, 0, 0, 0, 0, 0, 0⟩,
        ⟨"Tigers", "Home", 2, 145 / 2, 0, 0, 0, 0, 0, 0, 0, 0⟩] := by
  refine ⟨fun rows => List.sorted_insertionSort byAvgPointsDesc _,
    fun rows => ?_, fun rows k hk => ?_, by
      norm_num +decide [fetch_team_data, teamKeys, teamGroup, aggOf, qmean, byAvgPointsDesc,
        List.insertionSort, List.orderedInsert, List.dedup, List.pwFilter,
        List.filter_cons, List.filter_nil]⟩
  · exact (List.perm_insertionSort byAvgPointsDesc _).length_eq.trans
      (List.length_map _ _)
  · exact (List.perm_insertionSort byAvgPointsDesc _).mem_iff.mpr
      (List.mem_map_of_mem (aggOf rows) hk)

/-- C3 witness: on a one-row set the key `("Lions", 1)` is a group key and
its aggregate appears in the output. -/
theorem team_aggregation_contract_witness :
    aggOf ([⟨"Lions", 1, 1, 80, 0, 0, 0, 0, 0, 0, 0, 0, 0, 0, 0⟩] : List TeamRow)
        ("Lions", 1) ∈
      fetch_team_data ([⟨"Lions", 1, 1, 80, 0, 0, 0, 0, 0, 0, 0, 0, 0, 0, 0⟩] : List TeamRow) :=
  team_aggregation_contract.2.2.1
    ([⟨"Lions", 1, 1, 80, 0, 0, 0, 0, 0, 0, 0, 0, 0, 0, 0⟩] : List TeamRow)
    ("Lions", 1) (by decide)

/-- Outcome of the Head-to-Head Comparison page for a chosen pair of team
identifiers.  `noComparison` is the fall-through of `if team1 != team2:`,
which has no `else` branch: nothing is rendered and no message is shown.
`statsError` is `st.error("⚠️ Error: One or both teams have no recorded
stats.")`.  `comparison` carries the two teams' filtered aggregate rows used
for the side-by-side charts. -/
inductive H2HOutcome where
  | noComparison
  | statsError
  | comparison (team1_stats team2_stats : List TeamAgg)
deriving DecidableEq

/-- The head-to-head logic of `main` (lines 225–240): only when the two
identifiers differ does anything happen; then either team having no rows in
the aggregate table yields the stats error, otherwise the comparison. -/
def headToHead (df : List TeamAgg) (team1 team2 : String) : H2HOutcome :=
  if team1 ≠ team2 then
    if df.filter (fun r => r.Team == team1) = [] ∨
        df.filter (fun r => r.Team == team2) = [] then
      H2HOutcome.statsError
    else
      H2HOutcome.comparison (df.filter (fun r => r.Team == team1))
        (df.filter (fun r => r.Team == team2))
  else H2HOutcome.noComparison

/-- C4 counterexample: the claim says equal identifiers yield a reported
`IdenticalTeamsError`.  In the code the `if team1 != team2:` branch has no
`else`: choosing the same team twice produces no comparison and no error
report at all — the outcome is the silent `noComparison`, not an error. -/
theorem identical_teams_counterexample :
    headToHead [⟨"Lions", "Home", 3, 90, 0, 0, 0, 0, 0, 0, 0, 0⟩] "Lions" "Lions" =
      H2HOutcome.noComparison ∧
    H2HOutcome.noComparison ≠ H2HOutcome.statsError := by
  refine ⟨by decide, by decide⟩

/-- C4 amended: with equal identifiers the head-to-head comparison is
silently skipped (no output and no error report); with distinct identifiers,
if either identifier has no rows in the aggregate table the page reports the
stats error (`One or both teams have no recorded stats`) instead of
crashing. -/
theorem head_to_head_amended :
    ∀ (df : List TeamAgg) (team1 team2 : String),
      (team1 = team2 → headToHead df team1 team2 = H2HOutcome.noComparison) ∧
      (team1 ≠ team2 →
        df.filter (fun r => r.Team == team1) = [] ∨
          df.filter (fun r => r.Team == team2) = [] →
        headToHead df team1 team2 = H2HOutcome.statsError) := by
  intro df team1 team2
  constructor
  · intro h
    unfold headToHead
    rw [if_neg (not_not_intro h)]
  · intro hne hempty
    unfold headToHead
    rw [if_pos hne, if_pos hempty]

/-- C4 amended witness: on a concrete one-row aggregate table, picking
`Lions` twice is silently skipped, and comparing `Lions` with the absent
`Tigers` reports the stats error. -/
theorem head_to_head_amended_witness :
    headToHead [⟨"Lions", "Home", 3, 90, 0, 0, 0, 0, 0, 0, 0, 0⟩] "Tigers" "Tigers" =
      H2HOutcome.noComparison ∧
    headToHead [⟨"Lions", "Home", 3, 90, 0, 0, 0, 0, 0, 0, 0, 0⟩] "Lions" "Tigers" =
      H2HOutcome.statsError :=
  ⟨(head_to_head_amended [⟨"Lions", "Home", 3, 90, 0, 0, 0, 0, 0, 0, 0, 0⟩]
      "Tigers" "Tigers").1 rfl,
    (head_to_head_amended [⟨"Lions", "Home", 3, 90, 0, 0, 0, 0, 0, 0, 0, 0⟩]
      "Lions" "Tigers").2 (by decide) (Or.inr (by decide))⟩

/-- One row of the `Officials` table as consumed by `fetch_referee_data`. -/
structure OfficialRow where
  first_name : String
  last_name : String
  role : String
  game_id : ℕ
deriving DecidableEq

/-- `o.first_name || ' ' || o.last_name AS Referee`. -/
def refereeName (o : OfficialRow) : String := o.first_name ++ " " ++ o.last_name

/-- ASCII lower-casing of a string, character by character (structural form
of `String.map Char.toLower`, used to model SQLite's ASCII-case-insensitive
`LIKE`). -/
def lowerAscii (s : String) : String := String.mk (s.data.map Char.toLower)

/-- The joined, role-restricted row set of the referee query:
`Officials o JOIN Teams t ON o.game_id = t.game_id WHERE o.role NOT LIKE
'commissioner'`.  Each official row pairs with every team box-score row of
the same game (two rows per game when both teams are recorded).  SQLite
`LIKE` with no wildcard is ASCII-case-insensitive equality, modelled by
lower-casing the role. -/
def refJoin (officials : List OfficialRow) (teams : List TeamRow) :
    List (OfficialRow × TeamRow) :=
  (officials.flatMap (fun o =>
      (teams.filter (fun t => o.game_id == t.game_id)).map (fun t => (o, t)))).filter
    (fun p => !(lowerAscii p.1.role == "commissioner"))

/-- The distinct `GROUP BY Referee` keys of the joined rows. -/
def refNames (rows : List (OfficialRow × TeamRow)) : List String :=
  (rows.map (fun p => refereeName p.1)).dedup

/-- One output row of the referee query. -/
structure RefAgg where
  Referee : String
  Games_Officiated : ℕ
  Avg_Fouls_per_Game : ℚ
deriving DecidableEq

/-- The joined rows of one referee. -/
def refGroup (rows : List (OfficialRow × TeamRow)) (name : String) :
    List (OfficialRow × TeamRow) :=
  rows.filter (fun p => refereeName p.1 == name)

/-- The aggregate row for one referee: `COUNT(t.game_id)` counts the joined
rows of the group and `AVG(t.fouls_total)` is the mean of the per-team-game
fouls over those joined rows. -/
def refAggOf (rows : List (OfficialRow × TeamRow)) (name : String) : RefAgg :=
  { Referee := name
    Games_Officiated := (refGroup rows name).length
    Avg_Fouls_per_Game := qmean ((refGroup rows name).map (fun p => p.2.fouls_total)) }

/-- `ORDER BY Avg_Fouls_per_Game DESC` as a relation on aggregate rows. -/
def byFoulsDesc (a b : RefAgg) : Prop := b.Avg_Fouls_per_Game ≤ a.Avg_Fouls_per_Game

instance : DecidableRel byFoulsDesc :=
  fun a b => inferInstanceAs (Decidable (b.Avg_Fouls_per_Game ≤ a.Avg_Fouls_per_Game))

instance : IsTotal RefAgg byFoulsDesc :=
  ⟨fun a b => le_total b.Avg_Fouls_per_Game a.Avg_Fouls_per_Game⟩

instance : IsTrans RefAgg byFoulsDesc :=
  ⟨fun _ _ _ h1 h2 => le_trans h2 h1⟩

/-- `fetch_referee_data`: join, restrict the roles, group by referee name,
aggregate, and order by average fouls descending. -/
def fetch_referee_data (officials : List OfficialRow) (teams : List TeamRow) : List RefAgg :=
  List.insertionSort byFoulsDesc
    ((refNames (refJoin officials teams)).map (refAggOf (refJoin officials teams)))

/-- The claim's notion of the count of games officiated, written from the
spec's words and NOT from the code: the number of distinct games among a
referee's joined rows. -/
def claimGamesOfficiated (officials : List OfficialRow) (teams : List TeamRow)
    (name : String) : ℕ :=
  ((refGroup (refJoin officials teams) name).map (fun p => p.1.game_id)).dedup.length

/-- C8 counterexample: one referee officiating a single game whose two team
box-score rows (10 and 20 fouls) are both present.  The query joins the
official to both rows, so it reports `Games_Officiated = 2` — the joined
row count — although the referee officiated exactly 1 distinct game; the
reported average `15` is likewise the mean of per-team fouls, not of the
game's total fouls. -/
theorem referee_games_count_counterexample :
    fetch_referee_data ([⟨"John", "Doe", "referee", 1⟩] : List OfficialRow)
        ([⟨"Lions", 1, 1, 0, 0, 0, 0, 10, 0, 0, 0, 0, 0, 0, 0⟩,
          ⟨"Tigers", 2, 1, 0, 0, 0, 0, 20, 0, 0, 0, 0, 0, 0, 0⟩] : List TeamRow) =
      [⟨"John Doe", 2, 15⟩] ∧
    claimGamesOfficiated ([⟨"John", "Doe", "referee", 1⟩] : List OfficialRow)
        ([⟨"Lions", 1, 1, 0, 0, 0, 0, 10, 0, 0, 0, 0, 0, 0, 0⟩,
          ⟨"Tigers", 2, 1, 0, 0, 0, 0, 20, 0, 0, 0, 0, 0, 0, 0⟩] : List TeamRow)
        "John Doe" = 1 ∧
    (2 : ℕ) ≠ 1 := by
  refine ⟨?_, by decide, by decide⟩
  norm_num +decide [fetch_referee_data, refNames, refJoin, refGroup, refAggOf, qmean,
    refereeName, lowerAscii, byFoulsDesc, List.insertionSort, List.orderedInsert,
    List.dedup, List.pwFilter, List.filter_cons, List.filter_nil]

/-- C8 amended: the referee aggregation is ordered by average fouls
descending; every referee name occurring in the joined, role-restricted
rows yields its aggregate row (joined-row count and mean of per-team-game
fouls over the joined rows) in the output; and every joined row really is
an official row paired with a team box-score row for the same game whose
role is not `commissioner` (case-insensitively).  The reported count is the
joined-row count, which counts each game once per recorded team row, not
the number of distinct games. -/
theorem referee_aggregation_amended :
    (∀ (officials : List OfficialRow) (teams : List TeamRow),
      List.Sorted byFoulsDesc (fetch_referee_data officials teams)) ∧
    (∀ (officials : List OfficialRow) (teams : List TeamRow),
      ∀ name ∈ refNames (refJoin officials teams),
        refAggOf (refJoin officials teams) name ∈ fetch_referee_data officials teams) ∧
    (∀ (officials : List OfficialRow) (teams : List TeamRow),
      ∀ p ∈ refJoin officials teams,
        p.1 ∈ officials ∧ p.2 ∈ teams ∧ p.1.game_id = p.2.game_id ∧
          lowerAscii p.1.role ≠ "commissioner") := by
  refine ⟨fun officials teams => List.sorted_insertionSort byFoulsDesc _,
    fun officials teams name hname => ?_, fun officials teams p hp => ?_⟩
  · exact (List.perm_insertionSort byFoulsDesc _).mem_iff.mpr
      (List.mem_map_of_mem (refAggOf (refJoin officials teams)) hname)
  · unfold refJoin at hp
    obtain ⟨hmem, hrole⟩ := List.mem_filter.mp hp
    obtain ⟨o, ho, hpo⟩ := List.mem_flatMap.mp hmem
    obtain ⟨t, ht, hpt⟩ := List.mem_map.mp hpo
    obtain ⟨htm, hgid⟩ := List.mem_filter.mp ht
    subst hpt
    refine ⟨ho, htm, by simpa using hgid, by simpa using hrole⟩

/-- C8 amended witness: a one-official, one-team-row instance — the name
`Ann Lee` is a group key whose aggregate appears in the output, and the
single joined row satisfies the join characterization. -/
theorem referee_aggregation_amended_witness :
    refAggOf
        (refJoin ([⟨"Ann", "Lee", "referee", 1⟩] : List OfficialRow)
          ([⟨"Lions", 1, 1, 0, 0, 0, 0, 12, 0, 0, 0, 0, 0, 0, 0⟩] : List TeamRow))
        "Ann Lee" ∈
      fetch_referee_data ([⟨"Ann", "Lee", "referee", 1⟩] : List OfficialRow)
        ([⟨"Lions", 1, 1, 0, 0, 0, 0, 12, 0, 0, 0, 0, 0, 0, 0⟩] : List TeamRow) ∧
    ((⟨"Ann", "Lee", "referee", 1⟩ : OfficialRow) ∈
        ([⟨"Ann", "Lee", "referee", 1⟩] : List OfficialRow) ∧
      (⟨"Lions", 1, 1, 0, 0, 0, 0, 12, 0, 0, 0, 0, 0, 0, 0⟩ : TeamRow) ∈
        ([⟨"Lions", 1, 1, 0, 0, 0, 0, 12, 0, 0, 0, 0, 0, 0, 0⟩] : List TeamRow) ∧
      (⟨"Ann", "Lee", "referee", 1⟩ : OfficialRow).game_id =
        (⟨"Lions", 1, 1, 0, 0, 0, 0, 12, 0, 0, 0, 0, 0, 0, 0⟩ : TeamRow).game_id ∧
      lowerAscii (⟨"Ann", "Lee", "referee", 1⟩ : OfficialRow).role ≠ "commissioner") :=
  ⟨referee_aggregation_amended.2.1 ([⟨"Ann", "Lee", "referee", 1⟩] : List OfficialRow)
      ([⟨"Lions", 1, 1, 0, 0, 0, 0, 12, 0, 0, 0, 0, 0, 0, 0⟩] : List TeamRow)
      "Ann Lee" (by decide),
    referee_aggregation_amended.2.2 ([⟨"Ann", "Lee", "referee", 1⟩] : List OfficialRow)
      ([⟨"Lions", 1, 1, 0, 0, 0, 0, 12, 0, 0, 0, 0, 0, 0, 0⟩] : List TeamRow)
      (⟨"Ann", "Lee", "referee", 1⟩, ⟨"Lions", 1, 1, 0, 0, 0, 0, 12, 0, 0, 0, 0, 0, 0, 0⟩)
      (by decide)⟩

/-- The shooting statistics displayed by `generate_shot_chart`
(lines 128–157). -/
structure ShotStats where
  total_shots : ℕ
  fg_percentage : ℚ
  three_pt_percentage : ℚ
  mid_range_fg : ℚ
  paint_fg : ℚ
  most_frequent : ℚ × ℚ
deriving DecidableEq

/-- The statistics block of `generate_shot_chart` applied to the normalized
shots. -/
def computeStats (l : List NShot) : ShotStats :=
  { total_shots := totalShots l
    fg_percentage := fgPct l
    three_pt_percentage := threePtPct l
    mid_range_fg := midRangeFg l
    paint_fg := paintFg l
    most_frequent := mostFrequentLoc l }

/-- Result of one `generate_shot_chart` call.  `missingCourtImage` is the
early error return when the court asset is absent; `noData` is the early
warning return for an empty row set; `chart` carries the computed statistics
together with whether the seaborn `kdeplot` density layer is requested for
the figure.  The function has no variant signalling insufficient data for
the density estimate, because the code has no such path. -/
inductive ChartResult where
  | missingCourtImage
  | noData
  | chart (stats : ShotStats) (densityRequested : Bool)
deriving DecidableEq

/-- `generate_shot_chart` (lines 100–192) as a function of the court-image
availability and the player's fetched `Shots` rows: after the two early
returns, the statistics are computed and the figure is built, invoking
`sns.kdeplot` on the full shot set unconditionally — there is no
degenerate-input guard of any kind around the density call. -/
def generate_shot_chart (courtImageExists : Bool) (rows : List ShotRow) : ChartResult :=
  if !courtImageExists then ChartResult.missingCourtImage
  else if rows = [] then ChartResult.noData
  else ChartResult.chart (computeStats (rows.map processShot)) true

/-- C6: on the degenerate input of two identical shot rows (a single repeated
coordinate, hence zero variance in both dimensions), `generate_shot_chart`
still requests the density layer — the `chart` result carries
`densityRequested = true`, not a skip and not any
`InsufficientDataForDensity` signal (no such signal exists in the code) —
while the profile metrics are computed (2 attempts, FG% 100, 3PT% 0).  The
unguarded `sns.kdeplot` call on zero-variance data makes the underlying
Gaussian KDE raise, which nothing catches. -/
theorem density_unconditional_on_degenerate_input :
    generate_shot_chart true [⟨10, 10, "1", "2pt"⟩, ⟨10, 10, "1", "2pt"⟩] =
      ChartResult.chart
        (computeStats (List.map processShot [⟨10, 10, "1", "2pt"⟩, ⟨10, 10, "1", "2pt"⟩]))
        true ∧
    totalShots (List.map processShot [⟨10, 10, "1", "2pt"⟩, ⟨10, 10, "1", "2pt"⟩]) = 2 ∧
    fgPct (List.map processShot [⟨10, 10, "1", "2pt"⟩, ⟨10, 10, "1", "2pt"⟩]) = 100 ∧
    threePtPct (List.map processShot [⟨10, 10, "1", "2pt"⟩, ⟨10, 10, "1", "2pt"⟩]) = 0 := by
  refine ⟨by simp [generate_shot_chart], by simp [totalShots], ?_, ?_⟩
  · norm_num +decide [fgPct, pctOf, madeCount, processShot, normalizeResult, round1,
      round_eq, List.filter_cons, List.filter_nil]
  · norm_num +decide [threePtPct, threePtShots, pctOf, madeCount, processShot,
      normalizeResult, List.filter_cons, List.filter_nil]
